import Mathlib

/-!
Verification of the fleetidy scoring/classification engine.

Shallow embedding of `src/fred_postgres.py` and `src/iss_estimator.py`.

Modelling conventions:
- CSV/dict string fields that the code feeds to `safe_int` / `safe_float` /
  `get_int` / `get_percentile` are modelled as the parse result
  (`Option Int` / `Option ℚ`): `none` means the field is missing, empty or
  unparseable, in which case the Python helpers return their default.
- Fields only ever consumed by `is_true_value` / `get_alert` are modelled as
  the raw string, with the truthy-set test embedded.
- Python `float` arithmetic is modelled with ℚ; `round(x, n)` is Python's
  banker's rounding, embedded as round-half-to-even on ℚ.
- `random.Random(seed).randint(a, b)` is modelled by a parameter
  `mk : ℤ → ℤ → ℤ → ℤ` giving the first draw for a seed (each estimator call
  draws at most once); Python's process-salted `hash` on strings is modelled
  by a parameter `h : String → ℕ`.
-/

/-- Python `str.upper()` (ASCII case mapping suffices for the field values). -/
def upperStr (s : String) : String := String.mk (s.data.map Char.toUpper)

/-- Python `str.strip()`: drop whitespace from both ends. -/
def trimChars (l : List Char) : List Char :=
  ((l.dropWhile Char.isWhitespace).reverse.dropWhile Char.isWhitespace).reverse

/-- Python `str.strip()` on a `String`. -/
def trimStr (s : String) : String := String.mk (trimChars s.data)

/-- Auxiliary for splitting a character list on a separator. -/
def splitOnCharAux (sep : Char) : List Char → List Char → List (List Char)
  | acc, [] => [acc.reverse]
  | acc, c :: cs =>
    if c = sep then acc.reverse :: splitOnCharAux sep [] cs
    else splitOnCharAux sep (c :: acc) cs

/-- Python `str.split(sep)` for a one-character separator. -/
def splitOnChar (sep : Char) (s : String) : List String :=
  (splitOnCharAux sep [] s.data).map String.mk

/-- Auxiliary: does `pat` occur as a contiguous sublist of the second list? -/
def containsSub (pat : List Char) : List Char → Bool
  | [] => pat.isEmpty
  | c :: cs => pat.isPrefixOf (c :: cs) || containsSub pat cs

/-- Python `pat in s` substring test. -/
def strContains (s pat : String) : Bool := containsSub pat.data s.data

/-- `fred_postgres.is_true_value` / `iss_estimator.get_alert`:
truthy strings are Y / YES / TRUE / 1 / X after upper+strip. -/
def is_true_value (v : String) : Bool :=
  let u := trimStr (upperStr v)
  u == "Y" || u == "YES" || u == "TRUE" || u == "1" || u == "X"

/-- `safe_int` / `get_int` applied to a field: the parse result with default. -/
def safeIntD (o : Option Int) (d : Int) : Int := o.getD d

/-- `safe_float` applied to a field: the parse result with default `0.0`. -/
def safeFloatD (o : Option ℚ) : ℚ := o.getD 0

/-- `iss_estimator.get_percentile`: parsed value only when it lies in [0,100]. -/
def get_percentile (o : Option ℚ) : Option ℚ :=
  o.bind (fun p => if 0 ≤ p ∧ p ≤ 100 then some p else none)

/-- Round-half-to-even to an integer (Python `round(x)` on exact values). -/
def roundHE (x : ℚ) : ℤ :=
  let f := ⌊x⌋
  let r := x - (f : ℚ)
  if r < 1/2 then f
  else if 1/2 < r then f + 1
  else if f % 2 = 0 then f else f + 1

/-- Python `round(x, 1)`. -/
def round1 (x : ℚ) : ℚ := (roundHE (x * 10) : ℚ) / 10

/-- Python `round(x, 2)`. -/
def round2 (x : ℚ) : ℚ := (roundHE (x * 100) : ℚ) / 100

/-- `CarrierRecord`: the census-row fields read by the engine.
`passenger_equipment` holds the 30 passenger-equipment count fields
(OWNCOACH … TRPLIMO_16) in order; `other_truck_power` holds
OWNTRUCK, OWNTRACT, TRMTRUCK, TRMTRACT, TRPTRUCK, TRPTRACT.
`add_date_years` models the parsed ADD_DATE as years operating relative to
the run date (`none` = missing/unparseable, hence no experience penalty). -/
structure Carrier where
  dot_number : String := ""
  status_code : String := ""
  classdef : String := ""
  crgo_passengers : String := ""
  passenger_equipment : List (Option Int) := []
  truck_units : Option Int := none
  power_units : Option Int := none
  other_truck_power : List (Option Int) := []
  tot_pwr : Option Int := none
  private_passenger_business : String := ""
  private_passenger_nonbusiness : String := ""
  private_property : String := ""
  authorized_for_hire : String := ""
  exempt_for_hire : String := ""
  us_mail : String := ""
  federal_government : String := ""
  state_government : String := ""
  local_government : String := ""
  indian_tribe : String := ""
  migrant : String := ""
  add_date_years : Option ℚ := none
  mcs150_mileage : Option Int := none
  tot_mileage : Option Int := none
deriving DecidableEq

/-- Sum of the truck/tractor power-unit fields of `should_exclude_carrier`. -/
def truckPowerSum (c : Carrier) : Int :=
  safeIntD c.truck_units 0 + safeIntD c.power_units 0 +
    (c.other_truck_power.map (fun o => safeIntD o 0)).sum

/-- Rule 1 condition: STATUS_CODE present (after upper+strip) and not `A`. -/
def inactiveCond (c : Carrier) : Bool :=
  let s := trimStr (upperStr c.status_code)
  s ≠ "" && s ≠ "A"

/-- Rule 2 condition: any of the passenger signals. -/
def passengerCond (c : Carrier) : Bool :=
  let classdefUpper := upperStr c.classdef
  strContains classdefUpper "PRIVATE PASSENGER" ||
    (splitOnChar ';' classdefUpper).contains "PASSENGER" ||
    is_true_value c.crgo_passengers ||
    decide (0 < (c.passenger_equipment.map (fun o => safeIntD o 0)).sum) ||
    is_true_value c.private_passenger_business ||
    is_true_value c.private_passenger_nonbusiness

/-- `fred_postgres.should_exclude_carrier`: the ordered eligibility cascade. -/
def should_exclude_carrier (c : Carrier) : Bool × String :=
  if inactiveCond c then (true, "inactive_status")
  else if passengerCond c then (true, "passenger_operation")
  else if truckPowerSum c ≤ 0 then (true, "no_truck_power")
  else
    let classdef := upperStr c.classdef
    let has_authorized_for_hire := strContains classdef "AUTHORIZED FOR HIRE"
    let has_exempt_for_hire := strContains classdef "EXEMPT FOR HIRE"
    let has_private_property := strContains classdef "PRIVATE PROPERTY"
    let has_us_mail := strContains classdef "U. S. MAIL" ||
      strContains classdef "U.S. MAIL" || strContains classdef "US MAIL"
    if has_authorized_for_hire || has_exempt_for_hire then (false, "")
    else if has_us_mail then (false, "")
    else if has_private_property then (true, "private_not_for_hire")
    else
      let is_private_property := is_true_value c.private_property
      let is_authorized_for_hire := is_true_value c.authorized_for_hire
      let is_exempt_for_hire := is_true_value c.exempt_for_hire
      if is_private_property && !is_authorized_for_hire && !is_exempt_for_hire then
        (true, "private_not_for_hire")
      else if is_authorized_for_hire || is_exempt_for_hire then (false, "")
      else
        let other_authority := is_true_value c.us_mail ||
          is_true_value c.federal_government ||
          is_true_value c.state_government ||
          is_true_value c.local_government ||
          is_true_value c.indian_tribe ||
          is_true_value c.migrant
        if other_authority then (false, "")
        else (true, "no_for_hire_authority")

/-- A concrete carrier satisfying the inactive, passenger and no-truck-power
conditions at once. -/
def carrierMulti : Carrier :=
  { status_code := "I", crgo_passengers := "Y", passenger_equipment := [some 3],
    truck_units := some 0, power_units := some 0 }

/-- `ISSBucket` enum from `iss_estimator.py`. -/
inductive ISSBucket where
  | inspect
  | optional
  | pass
deriving DecidableEq

/-- The `.value` string of an `ISSBucket`. -/
def ISSBucket.value : ISSBucket → String
  | .inspect => "Inspect"
  | .optional => "Optional"
  | .pass => "Pass"

/-- `ISSSource` enum from `iss_estimator.py`. -/
inductive ISSSource where
  | safety
  | insufficient
deriving DecidableEq

/-- The `.value` string of an `ISSSource`. -/
def ISSSource.value : ISSSource → String
  | .safety => "SAFETY"
  | .insufficient => "INSUFFICIENT"

/-- `BasicRecord`: the BASIC-score row fields read by the engine.
Measures are parse results (`safe_float` / `get_percentile` inputs); alerts
are the truthiness of the alert strings; inspection counts are `get_int`
parse results. -/
structure BasicRow where
  unsafe_measure : Option ℚ := none
  hos_measure : Option ℚ := none
  driver_fit_measure : Option ℚ := none
  contr_subst_measure : Option ℚ := none
  veh_maint_measure : Option ℚ := none
  hm_measure : Option ℚ := none
  crash_measure : Option ℚ := none
  unsafe_alert : Bool := false
  hos_alert : Bool := false
  driver_fit_alert : Bool := false
  contr_subst_alert : Bool := false
  veh_maint_alert : Bool := false
  hm_alert : Bool := false
  crash_alert : Bool := false
  vehicle_insp_ct : Option Int := none
  driver_insp_ct : Option Int := none
deriving DecidableEq

/-- `ISSResult` dataclass. `caseTag` embeds the Python field `case`
(a Lean keyword). -/
structure ISSResult where
  iss_score : Int
  bucket : ISSBucket
  source : ISSSource
  group : Option Int := none
  caseTag : Option String := none
  alerts : List (String × Bool) := []
  confidence : String := "estimated"
deriving DecidableEq

/-- The alerts dictionary built by `estimate_iss`, in insertion order. -/
def basicAlerts (b : BasicRow) : List (String × Bool) :=
  [("UNSAFE", b.unsafe_alert), ("HOS", b.hos_alert),
   ("DRIVER_FIT", b.driver_fit_alert), ("CSAA", b.contr_subst_alert),
   ("VEH_MAINT", b.veh_maint_alert), ("HM", b.hm_alert),
   ("CRASH", b.crash_alert)]

/-- `ROADSIDE_BASICS` from `iss_estimator.py`. -/
def ROADSIDE_BASICS : List String := ["HOS", "DRIVER_FIT", "CSAA", "VEH_MAINT", "HM"]

/-- Does an optional percentile pass the `>= 85` high-risk test? -/
def pctAtLeast85 (o : Option ℚ) : Bool :=
  match o with
  | none => false
  | some p => decide (85 ≤ p)

/-- `iss_estimator.assign_group`: ISS group (1-13) from alert patterns, or
`none` when no BASIC percentile is present. -/
def assign_group (b : BasicRow) (nTotal nRoadside : ℕ) : Option Int :=
  let pct_unsafe := get_percentile b.unsafe_measure
  let pct_hos := get_percentile b.hos_measure
  let pct_crash := get_percentile b.crash_measure
  let has_any_percentile := (get_percentile b.unsafe_measure).isSome ||
    (get_percentile b.hos_measure).isSome ||
    (get_percentile b.driver_fit_measure).isSome ||
    (get_percentile b.contr_subst_measure).isSome ||
    (get_percentile b.veh_maint_measure).isSome ||
    (get_percentile b.hm_measure).isSome ||
    (get_percentile b.crash_measure).isSome
  if !has_any_percentile then none
  else if 4 ≤ nTotal then some 1
  else
    let high_risk_alerts : ℕ :=
      (if b.unsafe_alert && pctAtLeast85 pct_unsafe then 1 else 0) +
      (if b.hos_alert && pctAtLeast85 pct_hos then 1 else 0) +
      (if b.crash_alert && pctAtLeast85 pct_crash then 1 else 0)
    if 2 ≤ nTotal && 2 ≤ high_risk_alerts then some 1
    else if 3 ≤ nRoadside then some 2
    else if nRoadside = 2 then some 3
    else if 2 ≤ nTotal && nRoadside = 1 then some 4
    else if nTotal = 1 && b.hos_alert then some 5
    else if nTotal = 1 && b.unsafe_alert then some 7
    else if nTotal = 1 && b.crash_alert then some 8
    else if nTotal = 1 && b.veh_maint_alert then some 9
    else if nTotal = 1 && b.driver_fit_alert then some 10
    else if nTotal = 1 && b.contr_subst_alert then some 11
    else if nTotal = 1 && b.hm_alert then some 12
    else if has_any_percentile && nTotal = 0 then some 13
    else some 13

/-- `iss_estimator.safety_algorithm_score`. `rng a b` models the next
`rng.randint(a, b)` draw. -/
def safety_algorithm_score (group : Int) (rng : Int → Int → Int) : Int :=
  if group = 1 ∨ group = 2 ∨ group = 3 ∨ group = 4 ∨ group = 5 then
    let base := 99 - (group - 1) * 4
    let variation := rng (-3) 3
    max 75 (min 99 (base + variation))
  else if group = 7 ∨ group = 8 ∨ group = 9 ∨ group = 10 ∨ group = 11 ∨ group = 12 then
    let base := 74 - (group - 7) * 4
    let variation := rng (-3) 3
    max 50 (min 74 (base + variation))
  else if group = 13 then rng 25 49
  else 62

/-- The fleet-size fallback chain of `insufficient_data_algorithm`:
POWER_UNITS, else TRUCK_UNITS, else TOT_PWR with default 1. -/
def fallbackPowerUnits (carrier : Carrier) : Int :=
  let pu0 := safeIntD carrier.power_units 0
  let pu1 := if pu0 = 0 then safeIntD carrier.truck_units 0 else pu0
  if pu1 = 0 then safeIntD carrier.tot_pwr 1 else pu1

/-- `iss_estimator.insufficient_data_algorithm`. -/
def insufficient_data_algorithm (carrier : Carrier) (basic_row : BasicRow)
    (rng : Int → Int → Int) : ISSResult :=
  let vehicle_insp_ct := safeIntD basic_row.vehicle_insp_ct 0
  let driver_insp_ct := safeIntD basic_row.driver_insp_ct 0
  let power_units := fallbackPowerUnits carrier
  if 5 ≤ vehicle_insp_ct ∨ 3 ≤ driver_insp_ct then
    { iss_score := 50, bucket := .optional, source := .insufficient,
      caseTag := some "D2" }
  else if vehicle_insp_ct = 4 ∨ driver_insp_ct = 2 then
    { iss_score := rng 55 62, bucket := .optional, source := .insufficient,
      caseTag := some "D3" }
  else if vehicle_insp_ct = 0 ∧ driver_insp_ct = 0 then
    let score : Int :=
      if 100 ≤ power_units then 69
      else if 50 ≤ power_units then 68
      else if 20 ≤ power_units then 67
      else if 10 ≤ power_units then 66
      else if 5 ≤ power_units then 65
      else if 2 ≤ power_units then 64
      else 63
    { iss_score := score, bucket := .optional, source := .insufficient,
      caseTag := some "D4" }
  else
    let total_insp := vehicle_insp_ct + driver_insp_ct
    let bin_score := min 19 (total_insp * 3)
    { iss_score := 50 + bin_score, bucket := .optional, source := .insufficient,
      caseTag := some "D5" }

/-- `iss_estimator.estimate_iss`.
`h` models the process string hash (Python's salted `hash`), `mk` models
`random.Random(seed).randint` for the single draw an estimate makes, and
`cfgSeed` models `config.seed` (`none` or `0` are falsy, as in the code). -/
def estimate_iss (h : String → ℕ) (mk : Int → Int → Int → Int)
    (cfgSeed : Option Int) (carrier : Carrier) (basicRow : Option BasicRow) :
    ISSResult :=
  let dot := carrier.dot_number
  let seed : Int := match cfgSeed with
    | some s => if s ≠ 0 then s else ((h dot : Int) % 2 ^ 31)
    | none => (h dot : Int) % 2 ^ 31
  let rng := mk seed
  match basicRow with
  | none => insufficient_data_algorithm carrier {} rng
  | some b =>
    let alerts := basicAlerts b
    let nTotal := alerts.countP (fun p => p.2)
    let nRoadside := alerts.countP (fun p => p.2 && ROADSIDE_BASICS.contains p.1)
    match assign_group b nTotal nRoadside with
    | none => insufficient_data_algorithm carrier b rng
    | some g =>
      let score := safety_algorithm_score g rng
      let bucket := if 75 ≤ score then ISSBucket.inspect
        else if 50 ≤ score then ISSBucket.optional
        else ISSBucket.pass
      { iss_score := score, bucket := bucket, source := .safety,
        group := some g, alerts := alerts }

/-- A hash function standing for one process's salted string hash. -/
def hashA : String → ℕ := fun _ => 0

/-- A hash function standing for another process's salted string hash. -/
def hashB : String → ℕ := fun _ => 1

/-- A concrete seeded `randint` model: `a + seed % (b - a + 1)`. -/
def mkRngMod : Int → Int → Int → Int := fun seed a b => a + seed % (b - a + 1)

/-- Basic row with one percentile present and no alerts (ISS group 13). -/
def basicGroup13 : BasicRow := { unsafe_measure := some 50 }

/-- Basic row whose vehicle inspection count parses to `-1`. -/
def basicNegCount : BasicRow := { vehicle_insp_ct := some (-1) }

/-- `CrashRecord`: fields read by `calculate_crash_score`. -/
structure CrashRow where
  fatalities : Option Int := none
  injuries : Option Int := none
  hazmat_released : String := ""
deriving DecidableEq

/-- `InspectionRecord`: field read by `calculate_inspection_score`. -/
structure InspRow where
  oos_total : String := ""
deriving DecidableEq

/-- `ViolationRecord`: `BASIC_Desc` with the code's `'Unknown'` default. -/
structure ViolRow where
  basic_desc : String := "Unknown"
deriving DecidableEq

/-- `fred_postgres.calculate_experience_score`, with the ADD_DATE parse and
the `datetime.now()` subtraction abstracted to the resulting years-operating
value (`none` = missing or unparseable date, hence no penalty). -/
def calculate_experience_score (yearsOperating : Option ℚ) : ℚ :=
  let score : ℚ := 100
  let score := match yearsOperating with
    | none => score
    | some y =>
      if y < 1 then score - 30
      else if y < 2 then score - 20
      else if y < 3 then score - 10
      else if y < 5 then score - 5
      else score
  max 0 score

/-- The 7 BASIC categories of `calculate_safety_score`, in iteration order. -/
def basicCategories (b : BasicRow) : List (Option ℚ × Bool × String) :=
  [(b.unsafe_measure, b.unsafe_alert, "Unsafe Driving"),
   (b.hos_measure, b.hos_alert, "Hours-of-Service"),
   (b.driver_fit_measure, b.driver_fit_alert, "Driver Fitness"),
   (b.contr_subst_measure, b.contr_subst_alert, "Controlled Substances"),
   (b.veh_maint_measure, b.veh_maint_alert, "Vehicle Maintenance"),
   (b.hm_measure, b.hm_alert, "Hazardous Materials"),
   (b.crash_measure, b.crash_alert, "Crash Indicator")]

/-- Per-category deduction of `calculate_safety_score`. -/
def safetyDeduction (m : Option ℚ) (alert : Bool) : ℚ :=
  if alert then 15
  else if 75 ≤ safeFloatD m then 10
  else if 65 ≤ safeFloatD m then 5
  else 0

/-- `fred_postgres.calculate_safety_score` (score and flags). -/
def calculate_safety_score (basic_data : List BasicRow) : ℚ × List String :=
  match basic_data with
  | [] => (100, [])
  | b :: _ =>
    let score : ℚ :=
      100 - ((basicCategories b).map (fun t => safetyDeduction t.1 t.2.1)).sum
    let flags := (basicCategories b).filterMap
      (fun t => if t.2.1 then some ("BASIC Alert: " ++ t.2.2) else none)
    (max 0 score, flags)

/-- A capped deduction of `calculate_crash_score`: `min(cap, count*mult)` if
the count is positive, else no deduction. -/
def dedMin (cap mult count : Int) : ℚ :=
  if 0 < count then ((min cap (count * mult) : Int) : ℚ) else 0

/-- The crash-frequency deduction tier of `calculate_crash_score`. -/
def freqDeduction (total : Int) : ℚ :=
  if 5 ≤ total then 15 else if 3 ≤ total then 10 else 0

/-- `fred_postgres.calculate_crash_score` (score and flags; numeric payloads
inside flag strings use exact `toString` instead of Python `%` formatting). -/
def calculate_crash_score (crashes : List CrashRow) : ℚ × List String :=
  if crashes.isEmpty then (100, [])
  else
    let total_crashes : Int := crashes.length
    let fatalities := (crashes.map (fun c => safeIntD c.fatalities 0)).sum
    let injuries := (crashes.map (fun c => safeIntD c.injuries 0)).sum
    let hazmat_releases : Int := crashes.countP (fun c => is_true_value c.hazmat_released)
    let f1 : List String := if 0 < fatalities then
      ["FATAL crashes (" ++ toString fatalities ++ " fatalities)"] else []
    let f2 : List String := if 0 < injuries then
      ["Multiple injury crashes (" ++ toString injuries ++ " injuries)"] else []
    let f3 : List String := if 0 < hazmat_releases then
      ["Hazmat releases (" ++ toString hazmat_releases ++ ")"] else []
    let f4 : List String := if 1 ≤ total_crashes then
      ["High crash frequency (" ++ toString total_crashes ++ " crashes)"] else []
    (max 0 (100 - dedMin 50 25 fatalities - dedMin 30 5 injuries -
      dedMin 20 10 hazmat_releases - freqDeduction total_crashes),
     f1 ++ f2 ++ f3 ++ f4)

/-- The OOS-rate deduction and flags of `calculate_inspection_score`.
The 20% tier deducts without a flag (the code's asymmetric design). -/
def oosDeduction (oos_rate : ℚ) : ℚ × List String :=
  if 50 ≤ oos_rate then (30, ["High OOS rate (" ++ toString oos_rate ++ "%)"])
  else if 30 ≤ oos_rate then (20, ["Elevated OOS rate (" ++ toString oos_rate ++ "%)"])
  else if 20 ≤ oos_rate then (10, [])
  else (0, [])

/-- `fred_postgres.calculate_inspection_score` (score and flags; numeric
payloads inside flag strings use exact `toString`). -/
def calculate_inspection_score (inspections : List InspRow)
    (violations : List ViolRow) : ℚ × List String :=
  if inspections.isEmpty then (100, [])
  else
    let total_inspections : Int := inspections.length
    let oos_count : Int := inspections.countP (fun i => is_true_value i.oos_total)
    let oos_rate : ℚ := ((oos_count : ℚ) / (total_inspections : ℚ)) * 100
    let dflags : ℚ × List String :=
      if 0 < total_inspections then oosDeduction oos_rate
      else (0, [])
    let pattern_flags : List String :=
      if violations.isEmpty then []
      else ((violations.map (fun v => v.basic_desc)).eraseDups).filterMap
        (fun bd =>
          let count := violations.countP (fun v => v.basic_desc == bd)
          if 10 ≤ count then
            some ("Pattern: " ++ bd ++ " (" ++ toString count ++ " violations)")
          else none)
    (max 0 (100 - dflags.1), dflags.2 ++ pattern_flags)

/-- `ScoreResult`: the score-relevant fields of the dict built by
`process_carrier` (display-only address/contact/commodity fields omitted).
`has_sufficient_mileage` is the eligibility flag `annual_mileage >= 100000`. -/
structure ScoreResult where
  dot_number : String := ""
  experience_score : ℚ := 0
  safety_score : ℚ := 0
  crash_score : ℚ := 0
  inspection_score : ℚ := 0
  combined_score : ℚ := 0
  risk_flags : String := ""
  annual_mileage : Int := 0
  has_sufficient_mileage : Bool := false
  iss_score : Option Int := none
  iss_bucket : Option String := none
  iss_source : Option String := none
  crash_count : ℕ := 0
  inspection_count : ℕ := 0
  violation_count : ℕ := 0
  rank : Option ℕ := none
  fred_score_grade : Option String := none
  insurance_rating : Option ℚ := none
deriving DecidableEq

/-- `fred_postgres.process_carrier`: per-carrier scores, flags, mileage and
ISS display fields (ISS runs only when at least one basic row is present). -/
def process_carrier (h : String → ℕ) (mk : Int → Int → Int → Int)
    (carrier : Carrier) (basic_data : List BasicRow) (crashes : List CrashRow)
    (inspections : List InspRow) (violations : List ViolRow) : ScoreResult :=
  let experience_score := calculate_experience_score carrier.add_date_years
  let sres := calculate_safety_score basic_data
  let cres := calculate_crash_score crashes
  let ires := calculate_inspection_score inspections violations
  let all_flags := sres.2 ++ cres.2 ++ ires.2
  let m0 := safeIntD carrier.mcs150_mileage 0
  let mileage := if m0 = 0 then safeIntD carrier.tot_mileage 0 else m0
  let iss : Option (Int × String × String) := match basic_data with
    | [] => none
    | b :: _ =>
      let res := estimate_iss h mk none carrier (some b)
      some (res.iss_score, res.bucket.value, res.source.value)
  { dot_number := trimStr carrier.dot_number,
    experience_score := round1 experience_score,
    safety_score := round1 sres.1,
    crash_score := round1 cres.1,
    inspection_score := round1 ires.1,
    combined_score := round1 (experience_score * 0.15 + sres.1 * 0.35 +
      cres.1 * 0.30 + ires.1 * 0.20),
    risk_flags := String.intercalate "; " all_flags,
    annual_mileage := mileage,
    has_sufficient_mileage := decide (100000 ≤ mileage),
    iss_score := iss.map (fun t => t.1),
    iss_bucket := iss.map (fun t => t.2.1),
    iss_source := iss.map (fun t => t.2.2),
    crash_count := crashes.length,
    inspection_count := inspections.length,
    violation_count := violations.length,
    rank := none,
    fred_score_grade := none,
    insurance_rating := none }

/-- A rational that is (the cast of) an integer. -/
def IsIntQ (x : ℚ) : Prop := ∃ k : ℤ, x = (k : ℚ)

/-- Pass 1 of `calculate_insurance_ratings`: population totals over the
eligible subset and the global per-100k rates (0 when total mileage is 0). -/
def insuranceGlobals (results : List ScoreResult) : ℚ × ℚ :=
  let eligible := results.filter (fun r => r.has_sufficient_mileage)
  let total_violations : Int := (eligible.map (fun r => (r.violation_count : Int))).sum
  let total_crashes : Int := (eligible.map (fun r => (r.crash_count : Int))).sum
  let total_mileage : Int := (eligible.map (fun r => r.annual_mileage)).sum
  if 0 < total_mileage then
    (((total_violations : ℚ) / (total_mileage : ℚ)) * 100000,
     ((total_crashes : ℚ) / (total_mileage : ℚ)) * 100000)
  else (0, 0)

/-- Pass 2 of `calculate_insurance_ratings` for one carrier: assign the
clamped, rounded rating to eligible carriers with positive mileage. -/
def insuranceUpdate (gv gc : ℚ) (r : ScoreResult) : ScoreResult :=
  if r.has_sufficient_mileage ∧ 0 < r.annual_mileage then
    let mileage_100k : ℚ := (r.annual_mileage : ℚ) / 100000
    let viol_rate := (r.violation_count : ℚ) / mileage_100k
    let crash_rate := (r.crash_count : ℚ) / mileage_100k
    let viol_mult := if 0 < gv then viol_rate / gv else 1
    let crash_mult := if 0 < gc then crash_rate / gc else 1
    let rating := 100 * (0.4 * viol_mult + 0.6 * crash_mult)
    { r with insurance_rating := some (round2 (max 1 (min 500 rating))) }
  else r

/-- `fred_postgres.calculate_insurance_ratings`: no-op when no carrier is
eligible, else the two-pass population-relative rating. -/
def calculate_insurance_ratings (results : List ScoreResult) : List ScoreResult :=
  let eligible := results.filter (fun r => r.has_sufficient_mileage)
  if eligible.isEmpty then results
  else
    results.map (insuranceUpdate (insuranceGlobals results).1 (insuranceGlobals results).2)

/-- The cumulative-ceiling grade table of `assign_fred_grades`. -/
def grade_thresholds : List (ℚ × String) :=
  [(0.03, "A+"), (0.10, "A"), (0.20, "A-"),
   (0.30, "B+"), (0.45, "B"), (0.55, "B-"),
   (0.65, "C+"), (0.75, "C"), (0.85, "C-"),
   (0.90, "D+"), (0.96, "D"), (0.98, "D-"),
   (1.00, "F")]

/-- The grade walk: first grade whose ceiling is `>=` the percentile. -/
def gradeOf (percentile : ℚ) : Option String :=
  (grade_thresholds.find? (fun t => decide (percentile ≤ t.1))).map (fun t => t.2)

/-- Stable insert for descending order by `combined_score` (a later element
goes after earlier elements with an equal score). -/
def insertByCombined (x : ℕ × ScoreResult) :
    List (ℕ × ScoreResult) → List (ℕ × ScoreResult)
  | [] => [x]
  | y :: ys =>
    if y.2.combined_score < x.2.combined_score then x :: y :: ys
    else y :: insertByCombined x ys

/-- Stable descending sort by `combined_score` (Python
`sort(key=combined_score, reverse=True)` is a stable descending sort). -/
def sortByCombinedDesc (l : List (ℕ × ScoreResult)) : List (ℕ × ScoreResult) :=
  l.foldl (fun acc x => insertByCombined x acc) []

/-- The (original index, rank, grade) assignments made by the loop of
`assign_fred_grades` over the sorted eligible subset. -/
def fredGradeUpdates (results : List ScoreResult) : List (ℕ × ℕ × Option String) :=
  let elig := (results.enum).filter (fun p => p.2.has_sufficient_mileage)
  let sorted := sortByCombinedDesc elig
  let n := sorted.length
  sorted.enum.map (fun q => (q.2.1, q.1 + 1, gradeOf ((q.1 : ℚ) / (n : ℚ))))

/-- The code's `grade_counts[g]`: how many eligible carriers get grade `g`. -/
def fredGradeCount (results : List ScoreResult) (g : String) : ℕ :=
  (fredGradeUpdates results).countP (fun u => u.2.2 == some g)

/-- `fred_postgres.assign_fred_grades`: rank and grade written back to each
eligible carrier (in-place dict mutation in the code). -/
def assign_fred_grades (results : List ScoreResult) : List ScoreResult :=
  let updates := fredGradeUpdates results
  results.enum.map (fun p =>
    match updates.find? (fun u => u.1 == p.1) with
    | some u =>
      match u.2.2 with
      | some g => { p.2 with rank := some u.2.1, fred_score_grade := some g }
      | none => { p.2 with rank := some u.2.1 }
    | none => p.2)

/-- An eligible result: 200000 miles, 2 violations, 1 crash. -/
def rEligA : ScoreResult :=
  { dot_number := "1", combined_score := 80, annual_mileage := 200000,
    has_sufficient_mileage := true, violation_count := 2, crash_count := 1 }

/-- A second eligible result with the same violation/crash/mileage triple. -/
def rEligB : ScoreResult :=
  { rEligA with dot_number := "2", combined_score := 70 }

/-- An ineligible result (50000 miles). -/
def rInelig : ScoreResult :=
  { dot_number := "3", annual_mileage := 50000 }

/-- A small mixed population for the insurance-rating witness. -/
def resW : List ScoreResult := [rEligA, rEligB, rInelig]

/-- The `i`-th synthetic eligible carrier, with combined score `i`. -/
def mkRes (i : ℕ) : ScoreResult :=
  { dot_number := toString i, combined_score := (i : ℚ),
    annual_mileage := 150000, has_sufficient_mileage := true }

/-- 100 synthetic eligible carriers with pairwise-distinct combined scores. -/
def testPop : List ScoreResult := (List.range 100).map mkRes

/-- C2: for every carrier the classifier returns exactly one outcome, and the
rule precedence of the cascade holds. -/
theorem C2_classifier_precedence (c : Carrier) :
    (∃! p : Bool × String, should_exclude_carrier c = p) ∧
    (inactiveCond c = true → should_exclude_carrier c = (true, "inactive_status")) ∧
    (inactiveCond c = false → passengerCond c = true →
      should_exclude_carrier c = (true, "passenger_operation")) ∧
    (inactiveCond c = false → passengerCond c = false → truckPowerSum c ≤ 0 →
      should_exclude_carrier c = (true, "no_truck_power")) := by
  refine ⟨⟨should_exclude_carrier c, rfl, fun y hy => hy.symm⟩, ?_, ?_, ?_⟩
  · intro h1
    simp [should_exclude_carrier, h1]
  · intro h1 h2
    simp [should_exclude_carrier, h1, h2]
  · intro h1 h2 h3
    simp [should_exclude_carrier, h1, h2, h3]

/-- Witness for C2: a carrier satisfying several rule conditions at once is
classified by the first rule. -/
theorem C2_classifier_precedence_witness :
    should_exclude_carrier carrierMulti = (true, "inactive_status") :=
  (C2_classifier_precedence carrierMulti).2.1 (by decide)

/-- Shared facts about the Insufficient Data Algorithm, under the `randint`
contract and non-negative parsed inspection counts. -/
theorem insufficientDataProps (carrier : Carrier) (b : BasicRow)
    (rng : Int → Int → Int)
    (hr : ∀ a c : Int, a ≤ c → a ≤ rng a c ∧ rng a c ≤ c)
    (hv : 0 ≤ safeIntD b.vehicle_insp_ct 0)
    (hd : 0 ≤ safeIntD b.driver_insp_ct 0) :
    (insufficient_data_algorithm carrier b rng).source = ISSSource.insufficient ∧
    (insufficient_data_algorithm carrier b rng).bucket = ISSBucket.optional ∧
    (insufficient_data_algorithm carrier b rng).group = none ∧
    50 ≤ (insufficient_data_algorithm carrier b rng).iss_score ∧
    (insufficient_data_algorithm carrier b rng).iss_score ≤ 69 ∧
    (((insufficient_data_algorithm carrier b rng).caseTag = some "D2" ∧
        (insufficient_data_algorithm carrier b rng).iss_score = 50) ∨
     ((insufficient_data_algorithm carrier b rng).caseTag = some "D3" ∧
        55 ≤ (insufficient_data_algorithm carrier b rng).iss_score ∧
        (insufficient_data_algorithm carrier b rng).iss_score ≤ 62) ∨
     ((insufficient_data_algorithm carrier b rng).caseTag = some "D4" ∧
        63 ≤ (insufficient_data_algorithm carrier b rng).iss_score ∧
        (insufficient_data_algorithm carrier b rng).iss_score ≤ 69) ∨
     ((insufficient_data_algorithm carrier b rng).caseTag = some "D5" ∧
        53 ≤ (insufficient_data_algorithm carrier b rng).iss_score ∧
        (insufficient_data_algorithm carrier b rng).iss_score ≤ 69)) := by
  have h5562 := hr 55 62 (by norm_num)
  obtain ⟨r, hrEq⟩ : ∃ r, insufficient_data_algorithm carrier b rng = r := ⟨_, rfl⟩
  rw [hrEq]
  unfold insufficient_data_algorithm at hrEq
  dsimp only at hrEq
  split_ifs at hrEq with h1 h2 h3 p1 p2 p3 p4 p5 p6 <;> subst hrEq <;> dsimp only
  · exact ⟨rfl, rfl, rfl, by norm_num, by norm_num, Or.inl ⟨rfl, rfl⟩⟩
  · exact ⟨rfl, rfl, rfl, by omega, by omega,
      Or.inr (Or.inl ⟨rfl, by omega, by omega⟩)⟩
  all_goals try exact ⟨rfl, rfl, rfl, by norm_num, by norm_num,
    Or.inr (Or.inr (Or.inl ⟨rfl, by norm_num, by norm_num⟩))⟩
  · exact ⟨rfl, rfl, rfl, by omega, by omega,
      Or.inr (Or.inr (Or.inr ⟨rfl, by omega, by omega⟩))⟩

/-- C9: under non-negative parsed inspection counts, the Insufficient Data
Algorithm yields source Insufficient, bucket Optional, no group, a case in
D2-D5, a score in [50,69], and the per-case score ranges. -/
theorem C9_insufficient_data_invariants (carrier : Carrier) (b : BasicRow)
    (rng : Int → Int → Int)
    (hr : ∀ a c : Int, a ≤ c → a ≤ rng a c ∧ rng a c ≤ c)
    (hv : 0 ≤ safeIntD b.vehicle_insp_ct 0)
    (hd : 0 ≤ safeIntD b.driver_insp_ct 0) :
    (insufficient_data_algorithm carrier b rng).source = ISSSource.insufficient ∧
    (insufficient_data_algorithm carrier b rng).bucket = ISSBucket.optional ∧
    (insufficient_data_algorithm carrier b rng).group = none ∧
    50 ≤ (insufficient_data_algorithm carrier b rng).iss_score ∧
    (insufficient_data_algorithm carrier b rng).iss_score ≤ 69 ∧
    (((insufficient_data_algorithm carrier b rng).caseTag = some "D2" ∧
        (insufficient_data_algorithm carrier b rng).iss_score = 50) ∨
     ((insufficient_data_algorithm carrier b rng).caseTag = some "D3" ∧
        55 ≤ (insufficient_data_algorithm carrier b rng).iss_score ∧
        (insufficient_data_algorithm carrier b rng).iss_score ≤ 62) ∨
     ((insufficient_data_algorithm carrier b rng).caseTag = some "D4" ∧
        63 ≤ (insufficient_data_algorithm carrier b rng).iss_score ∧
        (insufficient_data_algorithm carrier b rng).iss_score ≤ 69) ∨
     ((insufficient_data_algorithm carrier b rng).caseTag = some "D5" ∧
        53 ≤ (insufficient_data_algorithm carrier b rng).iss_score ∧
        (insufficient_data_algorithm carrier b rng).iss_score ≤ 69)) :=
  insufficientDataProps carrier b rng hr hv hd

/-- Witness for C9 at a concrete carrier, basic row and rng. -/
theorem C9_insufficient_data_invariants_witness :
    (insufficient_data_algorithm {} { vehicle_insp_ct := some 1 }
        (mkRngMod 0)).source = ISSSource.insufficient ∧
    (insufficient_data_algorithm {} { vehicle_insp_ct := some 1 }
        (mkRngMod 0)).bucket = ISSBucket.optional := by
  have h := C9_insufficient_data_invariants {} { vehicle_insp_ct := some 1 }
    (mkRngMod 0)
    (by intro a c hac
        have hm : mkRngMod 0 a c = a := by simp [mkRngMod]
        exact ⟨by omega, by omega⟩)
    (by decide) (by decide)
  exact ⟨h.1, h.2.1⟩

/-- With POWER_UNITS parsing to 10 and an empty basic row, the Insufficient
Data Algorithm lands in case D4 with score 66. -/
theorem insufficientD4_powerUnits10 (carrier : Carrier) (rng : Int → Int → Int)
    (hp : carrier.power_units = some 10) :
    insufficient_data_algorithm carrier {} rng =
      { iss_score := 66, bucket := ISSBucket.optional,
        source := ISSSource.insufficient, caseTag := some "D4" } := by
  simp [insufficient_data_algorithm, fallbackPowerUnits, safeIntD, hp]

/-- C6: for any carrier whose POWER_UNITS parses to 10, the estimator with
`basic_row = null` yields case D4, score 66, bucket Optional, source
Insufficient, for every hash, rng and seed configuration. -/
theorem C6_null_basic_power10_d4 (h : String → ℕ) (mk : Int → Int → Int → Int)
    (cfgSeed : Option Int) (carrier : Carrier)
    (hp : carrier.power_units = some 10) :
    (estimate_iss h mk cfgSeed carrier none).iss_score = 66 ∧
    (estimate_iss h mk cfgSeed carrier none).bucket = ISSBucket.optional ∧
    (estimate_iss h mk cfgSeed carrier none).source = ISSSource.insufficient ∧
    (estimate_iss h mk cfgSeed carrier none).caseTag = some "D4" := by
  have key : estimate_iss h mk cfgSeed carrier none =
      insufficient_data_algorithm carrier {}
        (mk (match cfgSeed with
          | some s => if s ≠ 0 then s else ((h carrier.dot_number : Int) % 2 ^ 31)
          | none => (h carrier.dot_number : Int) % 2 ^ 31)) := rfl
  rw [key, insufficientD4_powerUnits10 carrier _ hp]
  exact ⟨rfl, rfl, rfl, rfl⟩

/-- Witness for C6 at a concrete carrier, hash and rng. -/
theorem C6_null_basic_power10_d4_witness :
    (estimate_iss hashA mkRngMod none { power_units := some 10 } none).iss_score = 66 ∧
    (estimate_iss hashA mkRngMod none { power_units := some 10 } none).bucket =
      ISSBucket.optional ∧
    (estimate_iss hashA mkRngMod none { power_units := some 10 } none).source =
      ISSSource.insufficient ∧
    (estimate_iss hashA mkRngMod none { power_units := some 10 } none).caseTag =
      some "D4" :=
  C6_null_basic_power10_d4 hashA mkRngMod none { power_units := some 10 } rfl

/-- C5 counterexample: a basic row whose VEHICLE_INSP_CT parses to -1 drives
the Insufficient Data Algorithm to score 47 with bucket Optional, so the
bucket is not Pass although the score is below 50. -/
theorem C5_counterexample :
    (estimate_iss hashA mkRngMod none {} (some basicNegCount)).iss_score = 47 ∧
    (estimate_iss hashA mkRngMod none {} (some basicNegCount)).iss_score < 50 ∧
    (estimate_iss hashA mkRngMod none {} (some basicNegCount)).bucket =
      ISSBucket.optional ∧
    ¬((estimate_iss hashA mkRngMod none {} (some basicNegCount)).bucket =
        ISSBucket.pass ↔
      (estimate_iss hashA mkRngMod none {} (some basicNegCount)).iss_score < 50) := by
  decide

/-- On the Insufficient-Data path with non-negative parsed inspection counts,
the bucket/score relation of the spec holds. -/
theorem insufficientBucketIff (carrier : Carrier) (b : BasicRow)
    (rng : Int → Int → Int)
    (hr : ∀ a c : Int, a ≤ c → a ≤ rng a c ∧ rng a c ≤ c)
    (hv : 0 ≤ safeIntD b.vehicle_insp_ct 0)
    (hd : 0 ≤ safeIntD b.driver_insp_ct 0) :
    ((insufficient_data_algorithm carrier b rng).bucket = ISSBucket.inspect ↔
      75 ≤ (insufficient_data_algorithm carrier b rng).iss_score) ∧
    ((insufficient_data_algorithm carrier b rng).bucket = ISSBucket.optional ↔
      50 ≤ (insufficient_data_algorithm carrier b rng).iss_score ∧
      (insufficient_data_algorithm carrier b rng).iss_score < 75) ∧
    ((insufficient_data_algorithm carrier b rng).bucket = ISSBucket.pass ↔
      (insufficient_data_algorithm carrier b rng).iss_score < 50) := by
  obtain ⟨-, hb, -, hlo, hhi, -⟩ := insufficientDataProps carrier b rng hr hv hd
  refine ⟨?_, ?_, ?_⟩
  · rw [hb]; exact iff_of_false (by decide) (by omega)
  · rw [hb]; exact iff_of_true rfl ⟨hlo, by omega⟩
  · rw [hb]; exact iff_of_false (by decide) (by omega)

/-- The Insufficient Data Algorithm always reports source Insufficient. -/
theorem insufficient_source (carrier : Carrier) (b : BasicRow)
    (rng : Int → Int → Int) :
    (insufficient_data_algorithm carrier b rng).source = ISSSource.insufficient := by
  unfold insufficient_data_algorithm
  dsimp only
  split_ifs <;> rfl

/-- Every estimate either comes from the Insufficient-Data path or has its
bucket determined by the score thresholds. -/
theorem estimate_insufficient_or_bucket_iff (h : String → ℕ)
    (mk : Int → Int → Int → Int) (cfgSeed : Option Int) (carrier : Carrier)
    (b : BasicRow) :
    (estimate_iss h mk cfgSeed carrier (some b)).source = ISSSource.insufficient ∨
    (((estimate_iss h mk cfgSeed carrier (some b)).bucket = ISSBucket.inspect ↔
        75 ≤ (estimate_iss h mk cfgSeed carrier (some b)).iss_score) ∧
      ((estimate_iss h mk cfgSeed carrier (some b)).bucket = ISSBucket.optional ↔
        50 ≤ (estimate_iss h mk cfgSeed carrier (some b)).iss_score ∧
        (estimate_iss h mk cfgSeed carrier (some b)).iss_score < 75) ∧
      ((estimate_iss h mk cfgSeed carrier (some b)).bucket = ISSBucket.pass ↔
        (estimate_iss h mk cfgSeed carrier (some b)).iss_score < 50)) := by
  unfold estimate_iss
  dsimp only
  split
  · exact Or.inl (insufficient_source _ _ _)
  · right
    dsimp only
    split_ifs with h75 h50
    · exact ⟨iff_of_true rfl h75, iff_of_false (by decide) (by omega),
        iff_of_false (by decide) (by omega)⟩
    · exact ⟨iff_of_false (by decide) h75, iff_of_true rfl ⟨h50, by omega⟩,
        iff_of_false (by decide) (by omega)⟩
    · exact ⟨iff_of_false (by decide) h75, iff_of_false (by decide) (by omega),
        iff_of_true rfl (by omega)⟩

/-- C5 (amended): the bucket is determined by the score — Inspect iff
score >= 75, Optional iff 50 <= score < 75, Pass iff score < 50 — on the
Safety path unconditionally, and on the Insufficient-Data path provided the
parsed vehicle and driver inspection counts are non-negative. -/
theorem C5_amended_bucket_determined (h : String → ℕ)
    (mk : Int → Int → Int → Int) (cfgSeed : Option Int) (carrier : Carrier)
    (basicRow : Option BasicRow) :
    ((estimate_iss h mk cfgSeed carrier basicRow).source = ISSSource.safety →
      ((estimate_iss h mk cfgSeed carrier basicRow).bucket = ISSBucket.inspect ↔
        75 ≤ (estimate_iss h mk cfgSeed carrier basicRow).iss_score) ∧
      ((estimate_iss h mk cfgSeed carrier basicRow).bucket = ISSBucket.optional ↔
        50 ≤ (estimate_iss h mk cfgSeed carrier basicRow).iss_score ∧
        (estimate_iss h mk cfgSeed carrier basicRow).iss_score < 75) ∧
      ((estimate_iss h mk cfgSeed carrier basicRow).bucket = ISSBucket.pass ↔
        (estimate_iss h mk cfgSeed carrier basicRow).iss_score < 50)) ∧
    ((∀ s a c : Int, a ≤ c → a ≤ mk s a c ∧ mk s a c ≤ c) →
      0 ≤ safeIntD (basicRow.getD {}).vehicle_insp_ct 0 →
      0 ≤ safeIntD (basicRow.getD {}).driver_insp_ct 0 →
      ((estimate_iss h mk cfgSeed carrier basicRow).bucket = ISSBucket.inspect ↔
        75 ≤ (estimate_iss h mk cfgSeed carrier basicRow).iss_score) ∧
      ((estimate_iss h mk cfgSeed carrier basicRow).bucket = ISSBucket.optional ↔
        50 ≤ (estimate_iss h mk cfgSeed carrier basicRow).iss_score ∧
        (estimate_iss h mk cfgSeed carrier basicRow).iss_score < 75) ∧
      ((estimate_iss h mk cfgSeed carrier basicRow).bucket = ISSBucket.pass ↔
        (estimate_iss h mk cfgSeed carrier basicRow).iss_score < 50)) := by
  constructor
  · cases basicRow with
    | none =>
      intro hs
      have key : estimate_iss h mk cfgSeed carrier none =
          insufficient_data_algorithm carrier {}
            (mk (match cfgSeed with
              | some s => if s ≠ 0 then s
                  else ((h carrier.dot_number : Int) % 2 ^ 31)
              | none => (h carrier.dot_number : Int) % 2 ^ 31)) := rfl
      rw [key, insufficient_source] at hs
      exact absurd hs (by decide)
    | some b =>
      intro hs
      rcases estimate_insufficient_or_bucket_iff h mk cfgSeed carrier b with hins | hiffs
      · rw [hins] at hs
        exact absurd hs (by decide)
      · exact hiffs
  · intro hmk hv hd
    cases basicRow with
    | none =>
      have key : estimate_iss h mk cfgSeed carrier none =
          insufficient_data_algorithm carrier {}
            (mk (match cfgSeed with
              | some s => if s ≠ 0 then s
                  else ((h carrier.dot_number : Int) % 2 ^ 31)
              | none => (h carrier.dot_number : Int) % 2 ^ 31)) := rfl
      rw [key]
      exact insufficientBucketIff carrier {} _ (hmk _) hv hd
    | some b =>
      unfold estimate_iss
      dsimp only
      split
      · exact insufficientBucketIff carrier b _ (hmk _) hv hd
      · dsimp only
        split_ifs with h75 h50
        · exact ⟨iff_of_true rfl h75, iff_of_false (by decide) (by omega),
            iff_of_false (by decide) (by omega)⟩
        · exact ⟨iff_of_false (by decide) h75, iff_of_true rfl ⟨h50, by omega⟩,
            iff_of_false (by decide) (by omega)⟩
        · exact ⟨iff_of_false (by decide) h75, iff_of_false (by decide) (by omega),
            iff_of_true rfl (by omega)⟩

/-- Witness for the amended C5: the Safety part at a group-13 row, and the
Insufficient-Data part at a null basic row. -/
theorem C5_amended_bucket_determined_witness :
    (((estimate_iss hashA mkRngMod none {} (some basicGroup13)).bucket =
        ISSBucket.inspect ↔
      75 ≤ (estimate_iss hashA mkRngMod none {} (some basicGroup13)).iss_score) ∧
    ((estimate_iss hashA mkRngMod none {} (some basicGroup13)).bucket =
        ISSBucket.optional ↔
      50 ≤ (estimate_iss hashA mkRngMod none {} (some basicGroup13)).iss_score ∧
      (estimate_iss hashA mkRngMod none {} (some basicGroup13)).iss_score < 75) ∧
    ((estimate_iss hashA mkRngMod none {} (some basicGroup13)).bucket =
        ISSBucket.pass ↔
      (estimate_iss hashA mkRngMod none {} (some basicGroup13)).iss_score < 50)) ∧
    (((estimate_iss hashA mkRngMod none {} none).bucket = ISSBucket.inspect ↔
      75 ≤ (estimate_iss hashA mkRngMod none {} none).iss_score) ∧
    ((estimate_iss hashA mkRngMod none {} none).bucket = ISSBucket.optional ↔
      50 ≤ (estimate_iss hashA mkRngMod none {} none).iss_score ∧
      (estimate_iss hashA mkRngMod none {} none).iss_score < 75) ∧
    ((estimate_iss hashA mkRngMod none {} none).bucket = ISSBucket.pass ↔
      (estimate_iss hashA mkRngMod none {} none).iss_score < 50)) := by
  constructor
  · exact (C5_amended_bucket_determined hashA mkRngMod none {}
      (some basicGroup13)).1 (by decide)
  · exact (C5_amended_bucket_determined hashA mkRngMod none {} none).2
      (by intro s a c hac
          have h1 : 0 ≤ s % (c - a + 1) := Int.emod_nonneg s (by omega)
          have h2 : s % (c - a + 1) < c - a + 1 := Int.emod_lt_of_pos s (by omega)
          unfold mkRngMod
          exact ⟨by omega, by omega⟩)
      (by decide) (by decide)

/-- C8: the estimator's output depends on the process string hash when no
explicit seed is configured — two processes whose string hashes differ give
different scores for the same carrier and basic row (the code seeds the RNG
with Python's salted `hash(dot)`). -/
theorem C8_score_depends_on_process_hash :
    (estimate_iss hashA mkRngMod none {} (some basicGroup13)).iss_score = 25 ∧
    (estimate_iss hashB mkRngMod none {} (some basicGroup13)).iss_score = 26 ∧
    estimate_iss hashA mkRngMod none {} (some basicGroup13) ≠
      estimate_iss hashB mkRngMod none {} (some basicGroup13) := by
  decide

/-- `roundHE` returns the floor or the floor plus one. -/
theorem roundHE_mem (x : ℚ) : roundHE x = ⌊x⌋ ∨ roundHE x = ⌊x⌋ + 1 := by
  unfold roundHE
  dsimp only
  split_ifs <;> simp

/-- `roundHE` is bounded below by any integer lower bound of its argument. -/
theorem le_roundHE {k : ℤ} {x : ℚ} (h : (k : ℚ) ≤ x) : k ≤ roundHE x := by
  have hf : k ≤ ⌊x⌋ := Int.le_floor.mpr h
  rcases roundHE_mem x with h1 | h1 <;> omega

/-- `roundHE` is bounded above by any integer upper bound of its argument. -/
theorem roundHE_le {k : ℤ} {x : ℚ} (h : x ≤ (k : ℚ)) : roundHE x ≤ k := by
  have hfl : (⌊x⌋ : ℚ) ≤ x := Int.floor_le x
  have hk : ⌊x⌋ ≤ k := by exact_mod_cast le_trans hfl h
  unfold roundHE
  dsimp only
  split_ifs with h1 h2 h3
  · exact hk
  · have hx2 : (⌊x⌋ : ℚ) + 1/2 < (k : ℚ) := by linarith
    have hlt : (⌊x⌋ : ℚ) < (k : ℚ) := by linarith
    have : ⌊x⌋ < k := by exact_mod_cast hlt
    omega
  · exact hk
  · have h1' : (1 : ℚ)/2 ≤ x - ⌊x⌋ := not_lt.mp h1
    have hx2 : (⌊x⌋ : ℚ) + 1/2 ≤ (k : ℚ) := by linarith
    have hlt : (⌊x⌋ : ℚ) < (k : ℚ) := by linarith
    have : ⌊x⌋ < k := by exact_mod_cast hlt
    omega

/-- `roundHE` is the identity on integers. -/
theorem roundHE_intCast (k : ℤ) : roundHE (k : ℚ) = k := by
  unfold roundHE
  rw [Int.floor_intCast]
  norm_num

/-- `round1` is the identity on integer-valued rationals. -/
theorem round1_eq_of_isInt {x : ℚ} (hx : IsIntQ x) : round1 x = x := by
  obtain ⟨k, rfl⟩ := hx
  unfold round1
  have h10 : (k : ℚ) * 10 = ((k * 10 : ℤ) : ℚ) := by push_cast; ring
  rw [h10, roundHE_intCast]
  push_cast
  ring

/-- `round1` keeps values in `[0, 100]`. -/
theorem round1_bounds {x : ℚ} (h0 : 0 ≤ x) (h100 : x ≤ 100) :
    0 ≤ round1 x ∧ round1 x ≤ 100 := by
  have l1 : (0 : ℤ) ≤ roundHE (x * 10) := le_roundHE (by push_cast; linarith)
  have l2 : roundHE (x * 10) ≤ (1000 : ℤ) := roundHE_le (by push_cast; linarith)
  have c1 : (0 : ℚ) ≤ (roundHE (x * 10) : ℚ) := by exact_mod_cast l1
  have c2 : ((roundHE (x * 10) : ℚ)) ≤ 1000 := by exact_mod_cast l2
  unfold round1
  constructor <;> linarith

/-- `round2` keeps values in `[1, 500]`. -/
theorem round2_bounds {x : ℚ} (h1 : 1 ≤ x) (h500 : x ≤ 500) :
    1 ≤ round2 x ∧ round2 x ≤ 500 := by
  have l1 : (100 : ℤ) ≤ roundHE (x * 100) := le_roundHE (by push_cast; linarith)
  have l2 : roundHE (x * 100) ≤ (50000 : ℤ) := roundHE_le (by push_cast; linarith)
  have c1 : (100 : ℚ) ≤ (roundHE (x * 100) : ℚ) := by exact_mod_cast l1
  have c2 : ((roundHE (x * 100) : ℚ)) ≤ 50000 := by exact_mod_cast l2
  unfold round2
  constructor <;> linarith

/-- Integer-valued rationals are closed under subtraction. -/
theorem IsIntQ.sub {x y : ℚ} (hx : IsIntQ x) (hy : IsIntQ y) : IsIntQ (x - y) := by
  obtain ⟨k, rfl⟩ := hx
  obtain ⟨m, rfl⟩ := hy
  exact ⟨k - m, by push_cast; ring⟩

/-- Integer-valued rationals are closed under `max`. -/
theorem IsIntQ.max {x y : ℚ} (hx : IsIntQ x) (hy : IsIntQ y) :
    IsIntQ (Max.max x y) := by
  obtain ⟨k, rfl⟩ := hx
  obtain ⟨m, rfl⟩ := hy
  exact ⟨Max.max k m, by rw [Int.cast_max]⟩

/-- A sum of integer-valued rationals is integer-valued. -/
theorem isIntQ_sum {l : List ℚ} (h : ∀ x ∈ l, IsIntQ x) : IsIntQ l.sum := by
  induction l with
  | nil => exact ⟨0, by norm_num⟩
  | cons a t ih =>
    obtain ⟨k, hk⟩ := h a (List.mem_cons_self a t)
    obtain ⟨m, hm⟩ := ih (fun x hx => h x (List.mem_cons_of_mem _ hx))
    exact ⟨k + m, by rw [List.sum_cons, hk, hm]; push_cast; ring⟩

/-- The experience score is an integer in `[0, 100]`. -/
theorem experience_props (y : Option ℚ) :
    IsIntQ (calculate_experience_score y) ∧
    0 ≤ calculate_experience_score y ∧ calculate_experience_score y ≤ 100 := by
  unfold calculate_experience_score
  cases y with
  | none =>
    refine ⟨⟨100, ?_⟩, ?_, ?_⟩ <;> norm_num
  | some v =>
    dsimp only
    split_ifs
    · exact ⟨⟨70, by norm_num⟩, by norm_num, by norm_num⟩
    · exact ⟨⟨80, by norm_num⟩, by norm_num, by norm_num⟩
    · exact ⟨⟨90, by norm_num⟩, by norm_num, by norm_num⟩
    · exact ⟨⟨95, by norm_num⟩, by norm_num, by norm_num⟩
    · exact ⟨⟨100, by norm_num⟩, by norm_num, by norm_num⟩

/-- Each safety deduction is an integer in `[0, 15]`. -/
theorem safetyDeduction_props (m : Option ℚ) (alert : Bool) :
    IsIntQ (safetyDeduction m alert) ∧
    0 ≤ safetyDeduction m alert ∧ safetyDeduction m alert ≤ 15 := by
  unfold safetyDeduction
  split_ifs
  · exact ⟨⟨15, by norm_num⟩, by norm_num, by norm_num⟩
  · exact ⟨⟨10, by norm_num⟩, by norm_num, by norm_num⟩
  · exact ⟨⟨5, by norm_num⟩, by norm_num, by norm_num⟩
  · exact ⟨⟨0, by norm_num⟩, by norm_num, by norm_num⟩

/-- The safety score is an integer in `[0, 100]`. -/
theorem safety_props (basic_data : List BasicRow) :
    IsIntQ (calculate_safety_score basic_data).1 ∧
    0 ≤ (calculate_safety_score basic_data).1 ∧
    (calculate_safety_score basic_data).1 ≤ 100 := by
  cases basic_data with
  | nil => exact ⟨⟨100, by norm_num [calculate_safety_score]⟩,
      by norm_num [calculate_safety_score], by norm_num [calculate_safety_score]⟩
  | cons b t =>
    have hmem : ∀ x ∈ (basicCategories b).map (fun t => safetyDeduction t.1 t.2.1),
        IsIntQ x ∧ 0 ≤ x ∧ x ≤ 15 := by
      intro x hx
      obtain ⟨c, -, rfl⟩ := List.mem_map.mp hx
      exact safetyDeduction_props c.1 c.2.1
    have hsum_int : IsIntQ ((basicCategories b).map
        (fun t => safetyDeduction t.1 t.2.1)).sum :=
      isIntQ_sum (fun x hx => (hmem x hx).1)
    have hsum_nonneg : 0 ≤ ((basicCategories b).map
        (fun t => safetyDeduction t.1 t.2.1)).sum :=
      List.sum_nonneg (fun x hx => (hmem x hx).2.1)
    unfold calculate_safety_score
    dsimp only
    refine ⟨IsIntQ.max ⟨0, by norm_num⟩ (IsIntQ.sub ⟨100, by norm_num⟩ hsum_int),
      le_max_left 0 _, max_le (by norm_num) (by linarith)⟩

/-- Each capped crash deduction is an integer in `[0, cap]`. -/
theorem dedMin_props (cap mult count : Int) (hcap : 0 ≤ cap) (hmult : 0 ≤ mult) :
    ∃ k : ℤ, dedMin cap mult count = (k : ℚ) ∧ 0 ≤ k ∧ k ≤ cap := by
  unfold dedMin
  split_ifs with hc
  · have hnn : 0 ≤ count * mult := mul_nonneg (le_of_lt hc) hmult
    exact ⟨min cap (count * mult), rfl, by omega, by omega⟩
  · exact ⟨0, by norm_num, by norm_num, hcap⟩

/-- The crash-frequency deduction is an integer in `[0, 15]`. -/
theorem freqDeduction_props (total : Int) :
    ∃ k : ℤ, freqDeduction total = (k : ℚ) ∧ 0 ≤ k ∧ k ≤ 15 := by
  unfold freqDeduction
  split_ifs
  · exact ⟨15, by norm_num, by norm_num, by norm_num⟩
  · exact ⟨10, by norm_num, by norm_num, by norm_num⟩
  · exact ⟨0, by norm_num, by norm_num, by norm_num⟩

/-- The crash score is an integer in `[0, 100]`. -/
theorem crash_props (crashes : List CrashRow) :
    IsIntQ (calculate_crash_score crashes).1 ∧
    0 ≤ (calculate_crash_score crashes).1 ∧
    (calculate_crash_score crashes).1 ≤ 100 := by
  obtain ⟨p, hp⟩ : ∃ p, calculate_crash_score crashes = p := ⟨_, rfl⟩
  rw [hp]
  unfold calculate_crash_score at hp
  dsimp only at hp
  split_ifs at hp with hemp
  · subst hp
    exact ⟨⟨100, by norm_num⟩, by norm_num, by norm_num⟩
  all_goals (
    obtain ⟨k1, he1, hl1, hu1⟩ := dedMin_props 50 25
      ((crashes.map (fun c => safeIntD c.fatalities 0)).sum) (by norm_num) (by norm_num)
    obtain ⟨k2, he2, hl2, hu2⟩ := dedMin_props 30 5
      ((crashes.map (fun c => safeIntD c.injuries 0)).sum) (by norm_num) (by norm_num)
    obtain ⟨k3, he3, hl3, hu3⟩ := dedMin_props 20 10
      ((crashes.countP (fun c => is_true_value c.hazmat_released) : Int))
      (by norm_num) (by norm_num)
    obtain ⟨k4, he4, hl4, hu4⟩ := freqDeduction_props ((crashes.length : Int))
    rw [he1, he2, he3, he4] at hp
    subst hp
    have hq1 : (0 : ℚ) ≤ (k1 : ℚ) := by exact_mod_cast hl1
    have hq2 : (0 : ℚ) ≤ (k2 : ℚ) := by exact_mod_cast hl2
    have hq3 : (0 : ℚ) ≤ (k3 : ℚ) := by exact_mod_cast hl3
    have hq4 : (0 : ℚ) ≤ (k4 : ℚ) := by exact_mod_cast hl4
    refine ⟨IsIntQ.max ⟨0, by norm_num⟩ ⟨100 - k1 - k2 - k3 - k4, by push_cast; ring⟩,
      le_max_left 0 _, max_le (by norm_num) (by linarith)⟩)

/-- The OOS deduction is an integer in `[0, 30]`. -/
theorem oosDeduction_props (rate : ℚ) :
    ∃ k : ℤ, (oosDeduction rate).1 = (k : ℚ) ∧ 0 ≤ k ∧ k ≤ 30 := by
  unfold oosDeduction
  split_ifs
  · exact ⟨30, rfl, by norm_num, by norm_num⟩
  · exact ⟨20, rfl, by norm_num, by norm_num⟩
  · exact ⟨10, rfl, by norm_num, by norm_num⟩
  · exact ⟨0, rfl, by norm_num, by norm_num⟩

/-- The inspection score is an integer in `[0, 100]`. -/
theorem inspection_props (inspections : List InspRow) (violations : List ViolRow) :
    IsIntQ (calculate_inspection_score inspections violations).1 ∧
    0 ≤ (calculate_inspection_score inspections violations).1 ∧
    (calculate_inspection_score inspections violations).1 ≤ 100 := by
  obtain ⟨p, hp⟩ : ∃ p, calculate_inspection_score inspections violations = p := ⟨_, rfl⟩
  rw [hp]
  unfold calculate_inspection_score at hp
  dsimp only at hp
  split_ifs at hp with hemp
  · subst hp
    exact ⟨⟨100, by norm_num⟩, by norm_num, by norm_num⟩
  all_goals (
    obtain ⟨k, hke, hkl, hku⟩ := oosDeduction_props
      ((((inspections.countP (fun i => is_true_value i.oos_total) : Int) : ℚ) /
        ((inspections.length : Int) : ℚ)) * 100)
    try rw [hke] at hp
    subst hp
    have hq : (0 : ℚ) ≤ (k : ℚ) := by exact_mod_cast hkl
    have hq' : ((k : ℚ)) ≤ 30 := by exact_mod_cast hku
    first
      | exact ⟨IsIntQ.max ⟨0, by norm_num⟩ ⟨100 - k, by push_cast; ring⟩,
          le_max_left 0 _, max_le (by norm_num) (by linarith)⟩
      | exact ⟨⟨100, by norm_num⟩, by norm_num, by norm_num⟩)

/-- C3: all four component scores lie in [0,100]; the combined score equals
the banker's-rounded fixed weighted sum of the component scores and lies in
[0,100]. -/
theorem C3_scores_bounded_combined (h : String → ℕ) (mk : Int → Int → Int → Int)
    (carrier : Carrier) (basic_data : List BasicRow) (crashes : List CrashRow)
    (inspections : List InspRow) (violations : List ViolRow) :
    let r := process_carrier h mk carrier basic_data crashes inspections violations
    (0 ≤ r.experience_score ∧ r.experience_score ≤ 100) ∧
    (0 ≤ r.safety_score ∧ r.safety_score ≤ 100) ∧
    (0 ≤ r.crash_score ∧ r.crash_score ≤ 100) ∧
    (0 ≤ r.inspection_score ∧ r.inspection_score ≤ 100) ∧
    r.combined_score = round1 (0.15 * r.experience_score + 0.35 * r.safety_score +
      0.30 * r.crash_score + 0.20 * r.inspection_score) ∧
    (0 ≤ r.combined_score ∧ r.combined_score ≤ 100) := by
  intro r
  obtain ⟨eInt, e0, e100⟩ := experience_props carrier.add_date_years
  obtain ⟨sInt, s0, s100⟩ := safety_props basic_data
  obtain ⟨cInt, c0, c100⟩ := crash_props crashes
  obtain ⟨iInt, i0, i100⟩ := inspection_props inspections violations
  have hrE : r.experience_score = calculate_experience_score carrier.add_date_years := by
    rw [show r.experience_score =
      round1 (calculate_experience_score carrier.add_date_years) from rfl,
      round1_eq_of_isInt eInt]
  have hrS : r.safety_score = (calculate_safety_score basic_data).1 := by
    rw [show r.safety_score = round1 (calculate_safety_score basic_data).1 from rfl,
      round1_eq_of_isInt sInt]
  have hrC : r.crash_score = (calculate_crash_score crashes).1 := by
    rw [show r.crash_score = round1 (calculate_crash_score crashes).1 from rfl,
      round1_eq_of_isInt cInt]
  have hrI : r.inspection_score = (calculate_inspection_score inspections violations).1 := by
    rw [show r.inspection_score =
      round1 (calculate_inspection_score inspections violations).1 from rfl,
      round1_eq_of_isInt iInt]
  have hrComb : r.combined_score =
      round1 (calculate_experience_score carrier.add_date_years * 0.15 +
        (calculate_safety_score basic_data).1 * 0.35 +
        (calculate_crash_score crashes).1 * 0.30 +
        (calculate_inspection_score inspections violations).1 * 0.20) := rfl
  have hw0 : 0 ≤ calculate_experience_score carrier.add_date_years * 0.15 +
      (calculate_safety_score basic_data).1 * 0.35 +
      (calculate_crash_score crashes).1 * 0.30 +
      (calculate_inspection_score inspections violations).1 * 0.20 := by linarith
  have hw100 : calculate_experience_score carrier.add_date_years * 0.15 +
      (calculate_safety_score basic_data).1 * 0.35 +
      (calculate_crash_score crashes).1 * 0.30 +
      (calculate_inspection_score inspections violations).1 * 0.20 ≤ 100 := by linarith
  obtain ⟨cb0, cb100⟩ := round1_bounds hw0 hw100
  refine ⟨⟨?_, ?_⟩, ⟨?_, ?_⟩, ⟨?_, ?_⟩, ⟨?_, ?_⟩, ?_, ?_, ?_⟩
  · rw [hrE]; exact e0
  · rw [hrE]; exact e100
  · rw [hrS]; exact s0
  · rw [hrS]; exact s100
  · rw [hrC]; exact c0
  · rw [hrC]; exact c100
  · rw [hrI]; exact i0
  · rw [hrI]; exact i100
  · rw [hrComb, hrE, hrS, hrC, hrI]
    congr 1
    ring
  · rw [hrComb]; exact cb0
  · rw [hrComb]; exact cb100

/-- C10: with no basic record, `process_carrier` leaves all three ISS fields
null, although the standalone estimator accepts a null basic row and returns
an Insufficient-Data result. -/
theorem C10_no_basic_null_iss (h : String → ℕ) (mk : Int → Int → Int → Int)
    (carrier : Carrier) (crashes : List CrashRow) (inspections : List InspRow)
    (violations : List ViolRow) (cfgSeed : Option Int) :
    (process_carrier h mk carrier [] crashes inspections violations).iss_score = none ∧
    (process_carrier h mk carrier [] crashes inspections violations).iss_bucket = none ∧
    (process_carrier h mk carrier [] crashes inspections violations).iss_source = none ∧
    (estimate_iss h mk cfgSeed carrier none).source = ISSSource.insufficient := by
  refine ⟨rfl, rfl, rfl, ?_⟩
  have key : estimate_iss h mk cfgSeed carrier none =
      insufficient_data_algorithm carrier {}
        (mk (match cfgSeed with
          | some s => if s ≠ 0 then s else ((h carrier.dot_number : Int) % 2 ^ 31)
          | none => (h carrier.dot_number : Int) % 2 ^ 31)) := rfl
  rw [key]
  exact insufficient_source carrier {} _

/-- C4: within one run (fixed population, hence fixed global rates), two
eligible carriers with identical violation/crash/mileage triples receive
identical ratings; every assigned rating lies in [1,500]; non-eligible
carriers keep their (null) rating. The consistency hypotheses state that the
eligibility flag is the one `process_carrier` computes. -/
theorem C4_insurance_rating_properties (results : List ScoreResult) :
    (results.filter (fun r => r.has_sufficient_mileage) ≠ [] →
      calculate_insurance_ratings results =
        results.map (insuranceUpdate (insuranceGlobals results).1
          (insuranceGlobals results).2)) ∧
    (∀ r1 r2 : ScoreResult, r1.has_sufficient_mileage = true →
      r2.has_sufficient_mileage = true →
      r1.has_sufficient_mileage = decide (100000 ≤ r1.annual_mileage) →
      r2.has_sufficient_mileage = decide (100000 ≤ r2.annual_mileage) →
      r1.violation_count = r2.violation_count →
      r1.crash_count = r2.crash_count →
      r1.annual_mileage = r2.annual_mileage →
      (insuranceUpdate (insuranceGlobals results).1 (insuranceGlobals results).2
        r1).insurance_rating =
      (insuranceUpdate (insuranceGlobals results).1 (insuranceGlobals results).2
        r2).insurance_rating) ∧
    (∀ r : ScoreResult, r.has_sufficient_mileage = true → 0 < r.annual_mileage →
      ∃ x : ℚ, (insuranceUpdate (insuranceGlobals results).1
          (insuranceGlobals results).2 r).insurance_rating = some x ∧
        1 ≤ x ∧ x ≤ 500) ∧
    (∀ r : ScoreResult, r.has_sufficient_mileage = false →
      (insuranceUpdate (insuranceGlobals results).1
        (insuranceGlobals results).2 r).insurance_rating = r.insurance_rating) := by
  refine ⟨?_, ?_, ?_, ?_⟩
  · intro hne
    unfold calculate_insurance_ratings
    dsimp only
    rw [if_neg]
    simpa [List.isEmpty_iff] using hne
  · intro r1 r2 hf1 hf2 hw1 hw2 hv hc hm
    have hm1 : 0 < r1.annual_mileage := by
      rw [hf1] at hw1
      have := of_decide_eq_true hw1.symm
      omega
    have hm2 : 0 < r2.annual_mileage := by
      rw [hf2] at hw2
      have := of_decide_eq_true hw2.symm
      omega
    unfold insuranceUpdate
    rw [if_pos ⟨hf1, hm1⟩, if_pos ⟨hf2, hm2⟩]
    dsimp only
    rw [hv, hc, hm]
  · intro r hf hm
    unfold insuranceUpdate
    rw [if_pos ⟨hf, hm⟩]
    refine ⟨_, rfl, ?_, ?_⟩
    · exact (round2_bounds (le_max_left 1 _)
        (max_le (by norm_num) (min_le_left _ _))).1
    · exact (round2_bounds (le_max_left 1 _)
        (max_le (by norm_num) (min_le_left _ _))).2
  · intro r hf
    unfold insuranceUpdate
    rw [if_neg]
    intro hcond
    rw [hf] at hcond
    exact absurd hcond.1 (by simp)

/-- Witness for C4 at a concrete three-carrier population. -/
theorem C4_insurance_rating_properties_witness :
    calculate_insurance_ratings resW =
      resW.map (insuranceUpdate (insuranceGlobals resW).1 (insuranceGlobals resW).2) ∧
    (insuranceUpdate (insuranceGlobals resW).1 (insuranceGlobals resW).2
      rEligA).insurance_rating =
    (insuranceUpdate (insuranceGlobals resW).1 (insuranceGlobals resW).2
      rEligB).insurance_rating ∧
    (∃ x : ℚ, (insuranceUpdate (insuranceGlobals resW).1 (insuranceGlobals resW).2
        rEligA).insurance_rating = some x ∧ 1 ≤ x ∧ x ≤ 500) ∧
    (insuranceUpdate (insuranceGlobals resW).1 (insuranceGlobals resW).2
      rInelig).insurance_rating = rInelig.insurance_rating := by
  have h := C4_insurance_rating_properties resW
  exact ⟨h.1 (by decide), h.2.1 rEligA rEligB rfl rfl (by decide) (by decide) rfl rfl rfl,
    h.2.2.1 rEligA rfl (by decide), h.2.2.2 rInelig rfl⟩

/-- C7: with zero eligible carriers both the insurance normalizer and the
grade assigner are no-ops (guards fire before any division), leaving every
carrier's rating, rank and grade unchanged. -/
theorem C7_empty_eligible_noop (results : List ScoreResult)
    (hm : ∀ r ∈ results, r.annual_mileage < 100000)
    (hw : ∀ r ∈ results, r.has_sufficient_mileage = decide (100000 ≤ r.annual_mileage)) :
    calculate_insurance_ratings results = results ∧
    assign_fred_grades results = results := by
  have hflag : ∀ r ∈ results, r.has_sufficient_mileage = false := by
    intro r hr
    rw [hw r hr, decide_eq_false_iff_not]
    have := hm r hr
    omega
  have hfil : results.filter (fun r => r.has_sufficient_mileage) = [] := by
    rw [List.filter_eq_nil_iff]
    intro a ha
    simp [hflag a ha]
  constructor
  · unfold calculate_insurance_ratings
    dsimp only
    rw [hfil]
    rfl
  · have hfil2 : (results.enum).filter (fun p => p.2.has_sufficient_mileage) = [] := by
      rw [List.filter_eq_nil_iff]
      intro p hp
      have hmem : p.2 ∈ results := by
        have hms := List.enumFrom_map_snd 0 results
        rw [← hms]
        exact List.mem_map_of_mem Prod.snd hp
      simp [hflag p.2 hmem]
    unfold assign_fred_grades fredGradeUpdates
    dsimp only
    rw [hfil2]
    show results.enum.map Prod.snd = results
    exact List.enumFrom_map_snd 0 results

/-- Witness for C7: a one-carrier population with insufficient mileage. -/
theorem C7_empty_eligible_noop_witness :
    calculate_insurance_ratings [rInelig] = [rInelig] ∧
    assign_fred_grades [rInelig] = [rInelig] :=
  C7_empty_eligible_noop [rInelig] (by decide) (by decide)

/-- Stable insertion preserves length (plus one). -/
theorem insertByCombined_length (x : ℕ × ScoreResult)
    (l : List (ℕ × ScoreResult)) :
    (insertByCombined x l).length = l.length + 1 := by
  induction l with
  | nil => rfl
  | cons y ys ih =>
    unfold insertByCombined
    split_ifs <;> simp [ih]

/-- The stable descending sort preserves length. -/
theorem sortByCombinedDesc_length (l : List (ℕ × ScoreResult)) :
    (sortByCombinedDesc l).length = l.length := by
  suffices hgen : ∀ (l acc : List (ℕ × ScoreResult)),
      (l.foldl (fun acc x => insertByCombined x acc) acc).length =
        acc.length + l.length by
    simpa using hgen l []
  intro l
  induction l with
  | nil => intro acc; simp
  | cons a t ih =>
    intro acc
    simp only [List.foldl_cons, ih, insertByCombined_length, List.length_cons]
    omega

/-- Counting a grade over the update list reduces to counting indices. -/
theorem countA (g : String) (n : ℕ) (l : List (ℕ × ScoreResult)) :
    ((l.enum.map (fun q => (q.2.1, q.1 + 1, gradeOf ((q.1 : ℚ) / (n : ℚ))))).countP
      (fun u => u.2.2 == some g)) =
    (List.range' 0 l.length 1).countP
      (fun i : ℕ => gradeOf ((i : ℚ) / (n : ℚ)) == some g) := by
  suffices hgen : ∀ (k : ℕ) (l : List (ℕ × ScoreResult)),
      (((List.enumFrom k l).map
          (fun q => (q.2.1, q.1 + 1, gradeOf ((q.1 : ℚ) / (n : ℚ))))).countP
        (fun u => u.2.2 == some g)) =
      (List.range' k l.length 1).countP
        (fun i : ℕ => gradeOf ((i : ℚ) / (n : ℚ)) == some g) by
    exact hgen 0 l
  intro k l
  induction l generalizing k with
  | nil => rfl
  | cons a t ih =>
    simp only [List.enumFrom, List.map_cons, List.countP_cons, List.length_cons,
      List.range'_succ, ih]

/-- If no list element maps to `b`, the mapped `find?` cannot return `b`. -/
theorem find?_map_ne {α β : Type} (p : α → Bool) (f : α → β) (b : β)
    (l : List α) (h : ∀ t ∈ l, f t ≠ b) :
    ((l.find? p).map f) ≠ some b := by
  cases hf : l.find? p with
  | none => simp
  | some t =>
    have ht : t ∈ l := List.mem_of_find?_eq_some hf
    simp [h t ht]

/-- With 100 eligible carriers, the grade walk gives A+ exactly to the
percentiles `i/100` with `i <= 3` (`3/100 <= 0.03` holds with equality). -/
theorem gradeOf_aplus_eq (i : ℕ) :
    (gradeOf ((i : ℚ) / ((100 : ℕ) : ℚ)) == some "A+") = decide (i ≤ 3) := by
  have h003 : (0.03 : ℚ) = 3 / 100 := by norm_num
  have hcast : ((100 : ℕ) : ℚ) = 100 := by norm_num
  by_cases hi : i ≤ 3
  · have hc : (i : ℚ) ≤ 3 := by exact_mod_cast hi
    have h1 : ((i : ℚ) / ((100 : ℕ) : ℚ)) ≤ (0.03 : ℚ) := by
      rw [hcast, h003, div_le_div_iff_of_pos_right (by norm_num : (0 : ℚ) < 100)]
      exact hc
    unfold gradeOf grade_thresholds
    rw [List.find?_cons_of_pos _ (by simpa using h1)]
    simp [hi]
  · have h4 : (4 : ℚ) ≤ (i : ℚ) := by exact_mod_cast (by omega : 4 ≤ i)
    have h1 : ¬(((i : ℚ) / ((100 : ℕ) : ℚ)) ≤ (0.03 : ℚ)) := by
      rw [hcast, h003, div_le_div_iff_of_pos_right (by norm_num : (0 : ℚ) < 100)]
      intro hc
      linarith
    unfold gradeOf grade_thresholds
    rw [List.find?_cons_of_neg _ (by simpa using h1)]
    have hne := find?_map_ne
      (fun t : ℚ × String => decide (((i : ℚ) / ((100 : ℕ) : ℚ)) ≤ t.1))
      (fun t : ℚ × String => t.2) "A+"
      [((0.10 : ℚ), "A"), ((0.20 : ℚ), "A-"),
       ((0.30 : ℚ), "B+"), ((0.45 : ℚ), "B"), ((0.55 : ℚ), "B-"),
       ((0.65 : ℚ), "C+"), ((0.75 : ℚ), "C"), ((0.85 : ℚ), "C-"),
       ((0.90 : ℚ), "D+"), ((0.96 : ℚ), "D"), ((0.98 : ℚ), "D-"),
       ((1.00 : ℚ), "F")]
      (by intro t ht; fin_cases ht <;> simp)
    rw [decide_eq_false hi]
    exact beq_eq_false_iff_ne.mpr hne

/-- Core count: any population of 100 all-eligible carriers gets exactly 4
A+ assignments from the grade walk. -/
theorem aplusCountCore (results : List ScoreResult)
    (hlen : results.length = 100)
    (helig : ∀ r ∈ results, r.has_sufficient_mileage = true) :
    fredGradeCount results "A+" = 4 := by
  unfold fredGradeCount fredGradeUpdates
  dsimp only
  have hfil : (results.enum).filter (fun p => p.2.has_sufficient_mileage) =
      results.enum := by
    rw [List.filter_eq_self]
    intro p hp
    have hmem : p.2 ∈ results := by
      have hms := List.enumFrom_map_snd 0 results
      rw [← hms]
      exact List.mem_map_of_mem Prod.snd hp
    simp [helig p.2 hmem]
  rw [hfil]
  have hslen : (sortByCombinedDesc results.enum).length = 100 := by
    rw [sortByCombinedDesc_length]
    simp [List.enum, hlen]
  rw [countA, hslen]
  rw [List.countP_congr (fun i _ => by rw [gradeOf_aplus_eq i])]
  decide

/-- C1 (amended): for any population of 100 eligible carriers with
pairwise-distinct combined scores, the grade walk places exactly 4 carriers
in A+ (indices 0..3, since the percentile 3/100 <= 0.03 holds with
equality), not 3. -/
theorem C1_amended_aplus_count_four (results : List ScoreResult)
    (hlen : results.length = 100)
    (helig : ∀ r ∈ results, r.has_sufficient_mileage = true)
    (_hdist : (results.map (fun r => r.combined_score)).Nodup) :
    fredGradeCount results "A+" = 4 :=
  aplusCountCore results hlen helig

/-- C1 counterexample: `testPop` is a population of 100 eligible carriers
with pairwise-distinct combined scores, yet the grade walk places 4 carriers
(indices 0..3) in A+, not 3 — percentile 3/100 satisfies `<= 0.03` with
equality. -/
theorem C1_counterexample :
    testPop.length = 100 ∧
    testPop.countP (fun r => r.has_sufficient_mileage) = 100 ∧
    (testPop.map (fun r => r.combined_score)).Nodup ∧
    fredGradeCount testPop "A+" = 4 ∧
    fredGradeCount testPop "A+" ≠ 3 := by
  have hlen : testPop.length = 100 := by simp [testPop]
  have helig : ∀ r ∈ testPop, r.has_sufficient_mileage = true := by
    intro r hr
    obtain ⟨i, -, rfl⟩ := List.mem_map.mp hr
    rfl
  have hdist : (testPop.map (fun r => r.combined_score)).Nodup := by
    unfold testPop
    rw [List.map_map]
    exact List.Nodup.map (fun a b hab => Nat.cast_injective hab)
      (List.nodup_range 100)
  have h4 := aplusCountCore testPop hlen helig
  refine ⟨hlen, ?_, hdist, h4, by omega⟩
  rw [List.countP_eq_length.mpr (fun a ha => by rw [helig a ha]), hlen]

/-- Witness for the amended C1 at the concrete 100-carrier population. -/
theorem C1_amended_aplus_count_four_witness :
    fredGradeCount testPop "A+" = 4 :=
  C1_amended_aplus_count_four testPop (by simp [testPop])
    (by intro r hr
        obtain ⟨i, -, rfl⟩ := List.mem_map.mp hr
        rfl)
    (by unfold testPop
        rw [List.map_map]
        exact List.Nodup.map (fun a b hab => Nat.cast_injective hab)
          (List.nodup_range 100))
